import Mathlib

set_option maxRecDepth 8000
set_option maxHeartbeats 2000000

/-!
Verification of the BECMI world generator (`becmi_world_gen.py`): data model,
hex topology, hydrology simulation and biome classification, embedded shallowly.
Scalar fields are modelled by a linear ordered field (`ℚ` for executable
scenarios, `ℝ` for the layer synthesizer, whose fractional powers need `rpow`).
The Python module-global `random` stream is made an explicit `RNG` value
threaded through the hydrology pass.
-/

/-- `TerrainType` from the source: the fixed closed set of BECMI terrain labels. -/
inductive TerrainType where
  | DEEP_SEA
  | SEA
  | COAST
  | SWAMP
  | DESERT
  | PLAINS
  | FOREST
  | HILLS
  | MOUNTAINS
  | JUNGLE
  | GLACIER
  | BADLANDS
deriving DecidableEq

/-- `HexData` from the source: one grid cell.  Flags default to `false`,
road level to `0` and dominion to `none`, as in the dataclass defaults. -/
structure HexData (α : Type) where
  x : ℤ
  y : ℤ
  elevation : α
  moisture : α
  temperature : α
  terrain : TerrainType
  is_river : Bool := false
  is_lake : Bool := false
  road_level : ℤ := 0
  dominion_id : Option ℤ := none
deriving DecidableEq

/-- The dense 2D cell array `self.grid`, indexed `grid[x][y]`. -/
abbrev Grid (α : Type) := List (List (HexData α))

/-- The `WorldGenerator` state: `width`, `height` and the owned grid. -/
structure Gen (α : Type) where
  width : ℤ
  height : ℤ
  grid : Grid α
deriving DecidableEq

/-- Placeholder cell used as the total-lookup default for out-of-range indices. -/
def defaultHex (α : Type) [Zero α] : HexData α :=
  { x := 0, y := 0, elevation := 0, moisture := 0, temperature := 0,
    terrain := .DEEP_SEA }

/-- Total lookup `grid[x][y]` (only ever applied in-bounds by the embedded code). -/
def cellAtN {α : Type} [Zero α] (g : Grid α) (x y : ℕ) : HexData α :=
  (g.getD x []).getD y (defaultHex α)

/-- `directions_even` from `get_neighbors`: neighbor offsets for even columns. -/
def directions_even : List (ℤ × ℤ) :=
  [(0, -1), (1, -1), (1, 0), (0, 1), (-1, 0), (-1, -1)]

/-- `directions_odd` from `get_neighbors`: neighbor offsets for odd columns. -/
def directions_odd : List (ℤ × ℤ) :=
  [(0, -1), (1, 0), (1, 1), (0, 1), (-1, 1), (-1, 0)]

/-- The in-bounds test `0 <= nx < self.width and 0 <= ny < self.height`. -/
def inBounds (width height x y : ℤ) : Prop :=
  0 ≤ x ∧ x < width ∧ 0 ≤ y ∧ y < height

instance (w h x y : ℤ) : Decidable (inBounds w h x y) := by
  unfold inBounds; exact inferInstance

/-- Coordinate skeleton of `get_neighbors`: pick the parity-dependent offset
table (`directions_odd if x % 2 else directions_even`) and keep the in-bounds
neighbor coordinates, in table order. -/
def neighborCoords (width height x y : ℤ) : List (ℤ × ℤ) :=
  let dirs := if x % 2 ≠ 0 then directions_odd else directions_even
  dirs.filterMap fun d =>
    let nx := x + d.1
    let ny := y + d.2
    if inBounds width height nx ny then some (nx, ny) else none

/-- `get_neighbors`: the neighbor cells `self.grid[nx][ny]` in table order. -/
def get_neighbors {α : Type} [Zero α] (G : Gen α) (x y : ℤ) : List (HexData α) :=
  (neighborCoords G.width G.height x y).map fun p => cellAtN G.grid p.1.toNat p.2.toNat

/-- An interior cell: every one of its six parity-dependent offsets stays in bounds. -/
def interiorCell (width height x y : ℤ) : Prop :=
  ∀ d ∈ (if x % 2 ≠ 0 then directions_odd else directions_even),
    inBounds width height (x + d.1) (y + d.2)

instance (w h x y : ℤ) : Decidable (interiorCell w h x y) := by
  unfold interiorCell; exact inferInstance

/-- C7: for interior cells A and B, if B's coordinates appear in the neighbor
set computed for A, then A's coordinates appear in the neighbor set computed
for B (neighbor symmetry of the odd-q offset tables). -/
theorem neighbor_symmetric (w h x1 y1 x2 y2 : ℤ)
    (hA : interiorCell w h x1 y1) (hB : interiorCell w h x2 y2)
    (hm : (x2, y2) ∈ neighborCoords w h x1 y1) :
    (x1, y1) ∈ neighborCoords w h x2 y2 := by
  clear hA
  unfold neighborCoords inBounds at hm ⊢
  unfold interiorCell inBounds at hB
  rcases Int.emod_two_eq x1 with h1 | h1 <;> rcases Int.emod_two_eq x2 with h2 | h2 <;>
    simp only [h1, h2, directions_even, directions_odd, List.mem_filterMap,
      List.mem_cons, List.not_mem_nil, or_false, Option.ite_none_right_eq_some,
      Option.some.injEq, Prod.mk.injEq, Prod.forall, ne_eq, one_ne_zero,
      not_false_eq_true, if_true, if_false, ite_true, ite_false, not_true_eq_false,
      forall_eq_or_imp, forall_eq, exists_eq_or_imp, exists_eq_left] at hm hB ⊢ <;>
    omega

/-- C7 witness: on a 5×5 grid, (2,2) and (2,1) are interior, (2,1) is among
(2,2)'s neighbors, and symmetry puts (2,2) among (2,1)'s neighbors. -/
theorem neighbor_symmetric_witness : ((2 : ℤ), (2 : ℤ)) ∈ neighborCoords 5 5 2 1 :=
  neighbor_symmetric 5 5 2 2 2 1 (by decide) (by decide) (by decide)

/-- `RIVER_MAX_STEPS` from the source: hard cap on walk iterations. -/
def RIVER_MAX_STEPS : ℕ := 1000

/-- Explicit random source replacing the Python module-global `random` state:
an infinite stream of naturals plus the current read position. -/
structure RNG where
  stream : ℕ → ℕ
  pos : ℕ

/-- One bounded draw, consuming a single stream value (models `_randbelow(n)`). -/
def randbelow (n : ℕ) (r : RNG) : ℕ × RNG :=
  (r.stream r.pos % n, ⟨r.stream, r.pos + 1⟩)

/-- Swap the elements at positions `i` and `j` of a list; identity when either
index is out of range (the shuffle below only uses valid indices). -/
def listSwap {α : Type} (l : List α) (i j : ℕ) : List α :=
  match l[i]?, l[j]? with
  | some a, some b => (l.set i b).set j a
  | _, _ => l

/-- The Fisher-Yates loop of `random.shuffle`: for `i` descending from
`len - 1` to 1, draw `j` below `i + 1` and swap positions `i` and `j`.
`k + 1` is the current `i`. -/
def shuffleAux {α : Type} (l : List α) (r : RNG) : ℕ → List α × RNG
  | 0 => (l, r)
  | k + 1 =>
      let d := randbelow (k + 2) r
      shuffleAux (listSwap l (k + 1) d.1) d.2 k

/-- `random.shuffle`, in value style: the permuted list plus advanced stream. -/
def pyShuffle {α : Type} (l : List α) (r : RNG) : List α × RNG :=
  shuffleAux l r (l.length - 1)

/-- Python `min(neighbors, key=lambda h: h.elevation)`: left scan keeping the
first element of least elevation. -/
def minByElev {α : Type} [LinearOrder α] : HexData α → List (HexData α) → HexData α
  | acc, [] => acc
  | acc, c :: rest => minByElev (if c.elevation < acc.elevation then c else acc) rest

/-- Write one cell back into the grid at `grid[x][y]`. -/
def setCell {α : Type} (g : Grid α) (x y : ℕ) (c : HexData α) : Grid α :=
  g.set x ((g.getD x []).set y c)

/-- `current_cell.is_river = True` (an in-place object update in the source). -/
def markRiver {α : Type} [Zero α] (g : Grid α) (x y : ℕ) : Grid α :=
  setCell g x y { cellAtN g x y with is_river := true }

/-- `current_cell.is_lake = True`. -/
def markLake {α : Type} [Zero α] (g : Grid α) (x y : ℕ) : Grid α :=
  setCell g x y { cellAtN g x y with is_lake := true }

/-- How one hydrology walk ended: local-minimum lake, sea-threshold neighbor,
no in-bounds neighbor (edge), or step-cap exhaustion. -/
inductive WalkResult where
  | lake
  | sea
  | edge
  | cap
deriving DecidableEq, Repr

/-- Result of a walk: final grid, advanced random source, outcome tag, and the
number of loop iterations performed. -/
structure WalkOut (α : Type) where
  grid : Grid α
  rng : RNG
  outcome : WalkResult
  steps : ℕ

/-- One iteration of the walk loop in `generate_rivers`: mark the current cell
as river; if there are no neighbors stop (edge of map); otherwise shuffle the
neighbors, take the lowest, and either flag a lake (no strictly lower
neighbor), mark a sea mouth (below the 0.3 threshold) and stop, or continue
from the lowest neighbor via `recurse`. -/
def walkStep {α : Type} [LinearOrderedField α] (w h : ℤ)
    (recurse : Grid α → ℕ → ℕ → RNG → WalkOut α)
    (g : Grid α) (x y : ℕ) (r : RNG) : WalkOut α :=
  let g1 := markRiver g x y
  let neighbors := get_neighbors ⟨w, h, g1⟩ ↑x ↑y
  if neighbors.isEmpty then ⟨g1, r, .edge, 1⟩
  else
    let s := pyShuffle neighbors r
    let lowest :=
      match s.1 with
      | [] => defaultHex α
      | c :: rest => minByElev c rest
    let current := cellAtN g1 x y
    if lowest.elevation ≥ current.elevation then ⟨markLake g1 x y, s.2, .lake, 1⟩
    else if lowest.elevation < 3 / 10 then
      ⟨markRiver g1 lowest.x.toNat lowest.y.toNat, s.2, .sea, 1⟩
    else
      let o := recurse g1 lowest.x.toNat lowest.y.toNat s.2
      ⟨o.grid, o.rng, o.outcome, o.steps + 1⟩

/-- The walk from a spring, with the remaining step budget as fuel
(`while steps < RIVER_MAX_STEPS`). -/
def riverWalkAux {α : Type} [LinearOrderedField α] (w h : ℤ) :
    ℕ → Grid α → ℕ → ℕ → RNG → WalkOut α
  | 0, g, _, _, r => ⟨g, r, .cap, 0⟩
  | fuel + 1, g, x, y, r => walkStep w h (riverWalkAux w h fuel) g x y r

/-- Candidate springs: every cell with elevation at least
`SPRING_MIN_ELEVATION` (0.7), enumerated x-major then y, as in the source's
list comprehension. -/
def candidate_springs {α : Type} [LinearOrderedField α] (G : Gen α) : List (HexData α) :=
  ((List.range G.width.toNat).map fun x =>
    (List.range G.height.toNat).filterMap fun y =>
      let c := cellAtN G.grid x y
      if c.elevation ≥ 7 / 10 then some c else none).flatten

/-- Python `int(..)` on a number: truncation toward zero. -/
def pyInt (q : ℚ) : ℤ :=
  if 0 ≤ q then ⌊q⌋ else ⌈q⌉

/-- `target_springs = max(1, int(self.width * self.height * SPRING_DENSITY))`
with `SPRING_DENSITY = 0.004` (exact rational 1/250 here). -/
def target_springs {α : Type} (G : Gen α) : ℕ :=
  (max 1 (pyInt (((G.width * G.height : ℤ) : ℚ) * (4 / 1000)))).toNat

/-- `springs = candidate_springs[:min(len(candidate_springs), target_springs)]`
after the shuffle. -/
def selected_springs {α : Type} [LinearOrderedField α] (G : Gen α) (r : RNG) :
    List (HexData α) :=
  ((pyShuffle (candidate_springs G) r).1).take
    (min (candidate_springs G).length (target_springs G))

/-- The for-loop over selected springs: skip springs already marked as river
(re-reading the grid), otherwise run the walk and thread grid and stream on. -/
def runWalks {α : Type} [LinearOrderedField α] (w h : ℤ) :
    List (HexData α) → Grid α → RNG → Grid α × RNG
  | [], g, r => (g, r)
  | spring :: rest, g, r =>
      if (cellAtN g spring.x.toNat spring.y.toNat).is_river then runWalks w h rest g r
      else
        let o := riverWalkAux w h RIVER_MAX_STEPS g spring.x.toNat spring.y.toNat r
        runWalks w h rest o.grid o.rng

/-- `generate_rivers`: hydrology pass. Returns unchanged when there are no
candidates; otherwise shuffles candidates, selects the springs and runs the
walks. -/
def generate_rivers {α : Type} [LinearOrderedField α] (G : Gen α) (r : RNG) : Gen α :=
  let cands := candidate_springs G
  if cands.isEmpty then G
  else
    { G with
      grid := (runWalks G.width G.height (selected_springs G r) G.grid
        (pyShuffle cands r).2).1 }

/-- The local moisture adjustment of `assign_biomes`: +0.2 when the cell is
river or lake (computed before the land branching, not persisted). -/
def effMoisture {α : Type} [LinearOrderedField α] (c : HexData α) : α :=
  if c.is_river || c.is_lake then c.moisture + 2 / 10 else c.moisture

/-- The decision tree of `assign_biomes` for one cell: first match wins,
exactly as the nested conditionals in the source. -/
def biomeLabel {α : Type} [LinearOrderedField α] (c : HexData α) : TerrainType :=
  let e := c.elevation
  let t := c.temperature
  if e < 15 / 100 then .DEEP_SEA
  else if e < 30 / 100 then .SEA
  else
    let m := effMoisture c
    if e > 85 / 100 then
      if t < 2 / 10 then .GLACIER else .MOUNTAINS
    else if e > 70 / 100 then .HILLS
    else if t < 15 / 100 then .GLACIER
    else if t > 8 / 10 then
      if m > 6 / 10 then .JUNGLE
      else if m > 3 / 10 then .SWAMP
      else .DESERT
    else
      if m > 7 / 10 then .SWAMP
      else if m > 5 / 10 then .FOREST
      else if m > 2 / 10 then .PLAINS
      else .BADLANDS

/-- Per-cell effect of `assign_biomes`: overwrite the terrain label, leave
every other field (including the hydrology flags) untouched. -/
def assignBiomeCell {α : Type} [LinearOrderedField α] (c : HexData α) : HexData α :=
  { c with terrain := biomeLabel c }

/-- `assign_biomes`: classify every cell of the width×height grid. -/
def assign_biomes {α : Type} [LinearOrderedField α] (G : Gen α) : Gen α :=
  { G with
    grid := (List.range G.width.toNat).map fun x =>
      (List.range G.height.toNat).map fun y => assignBiomeCell (cellAtN G.grid x y) }

/-- A fresh cell exactly as `generate_base_layers` creates it (placeholder
terrain, default flags). -/
def mkHex (x y : ℤ) (e m t : ℚ) : HexData ℚ :=
  { x := x, y := y, elevation := e, moisture := m, temperature := t,
    terrain := .DEEP_SEA }

/-- The all-zero random stream, used for concrete witnesses. -/
def zeroRNG : RNG := ⟨fun _ => 0, 0⟩

/-- Scenario A: a 3-cell row (width 3, height 1) with elevations 0.9, 0.5, 0.2. -/
def scenarioRow : Gen ℚ :=
  ⟨3, 1, [[mkHex 0 0 (9 / 10) 0 0], [mkHex 1 0 (1 / 2) 0 0], [mkHex 2 0 (1 / 5) 0 0]]⟩

/-- A single-cell grid whose only cell qualifies as a spring. -/
def oneCell : Gen ℚ := ⟨1, 1, [[mkHex 0 0 (9 / 10) 0 0]]⟩

/-- A 2-cell row whose walk ends in a local-minimum lake at (0,0). -/
def twoCellRow : Gen ℚ :=
  ⟨2, 1, [[mkHex 0 0 (9 / 10) 0 0], [mkHex 1 0 (19 / 20) 0 0]]⟩

/-- C1: with the random source made an explicit input, the hydrology pass is a
pure function of the grid and the stream: equal streams give bit-identical
river and lake assignments. -/
theorem hydrology_deterministic {α : Type} [LinearOrderedField α]
    (G : Gen α) (r1 r2 : RNG) (hr : r1 = r2) :
    generate_rivers G r1 = generate_rivers G r2 := by rw [hr]

/-- C1 witness: two runs on the one-cell grid with the zero stream agree. -/
theorem hydrology_deterministic_witness :
    generate_rivers oneCell zeroRNG = generate_rivers oneCell zeroRNG :=
  hydrology_deterministic oneCell zeroRNG zeroRNG rfl

/-- C3 counterexample: the cell with elevation 0.9, moisture 0.1, temperature
0.9 and no hydrology flags classifies as MOUNTAINS (the elevation > 0.85
branch fires before any moisture test), not DESERT as the claim states. -/
theorem desert_scenario_counterexample :
    (assignBiomeCell (mkHex 0 0 (9 / 10) (1 / 10) (9 / 10))).terrain =
        TerrainType.MOUNTAINS ∧
      TerrainType.MOUNTAINS ≠ TerrainType.DESERT := by with_unfolding_all decide

/-- C3 (amended): at a flatland elevation (0.5) with moisture 0.1 and
temperature 0.9 the classifier yields DESERT, and with is_river set the
effective moisture 0.3 still yields DESERT because 0.3 is not strictly
greater than the 0.3 swamp boundary. -/
theorem desert_boundary_strict :
    (assignBiomeCell (mkHex 0 0 (1 / 2) (1 / 10) (9 / 10))).terrain =
        TerrainType.DESERT ∧
      (assignBiomeCell
          { mkHex 0 0 (1 / 2) (1 / 10) (9 / 10) with is_river := true }).terrain =
        TerrainType.DESERT := by with_unfolding_all decide

/-- `WorldGenerator.__init__` state: dimensions plus the width×height grid of
`None` placeholders.  The constructor performs no validation at all. -/
structure InitState where
  width : ℤ
  height : ℤ
  grid : List (List (Option (HexData ℝ)))

/-- `WorldGenerator(width, height)` as written: store the dimensions and
allocate the placeholder grid.  There is no dimension check and no failure
path of any kind. -/
def worldGeneratorInit (width height : ℤ) : InitState :=
  ⟨width, height, List.replicate width.toNat (List.replicate height.toNat none)⟩

/-- C4: constructing the generator with non-positive dimensions does not fail
fast: it succeeds and returns a state with an empty grid, and construction is
total for all dimensions. -/
theorem init_no_failfast :
    worldGeneratorInit 0 5 = ⟨0, 5, []⟩ ∧
      worldGeneratorInit (-3) 4 = ⟨-3, 4, []⟩ ∧
      ∀ w h : ℤ, worldGeneratorInit w h =
        ⟨w, h, List.replicate w.toNat (List.replicate h.toNat none)⟩ :=
  ⟨rfl, rfl, fun _ _ => rfl⟩

/-- The walk's step counter never exceeds its fuel. -/
theorem riverWalkAux_steps_le {α : Type} [LinearOrderedField α] (w h : ℤ) (fuel : ℕ) :
    ∀ (g : Grid α) (x y : ℕ) (r : RNG), (riverWalkAux w h fuel g x y r).steps ≤ fuel := by
  induction fuel with
  | zero => intro g x y r; exact Nat.le_refl 0
  | succ n ih =>
      intro g x y r
      show (walkStep w h (riverWalkAux w h n) g x y r).steps ≤ n + 1
      unfold walkStep
      dsimp only
      split
      · exact Nat.succ_le_succ (Nat.zero_le n)
      · split
        · exact Nat.succ_le_succ (Nat.zero_le n)
        · split
          · exact Nat.succ_le_succ (Nat.zero_le n)
          · exact Nat.succ_le_succ (ih _ _ _ _)

/-- C6 (amended): every hydrology walk performs at most `RIVER_MAX_STEPS`
iterations, and it ends in exactly one of four ways: a local-minimum lake, a
sea-threshold neighbor, step-cap exhaustion, or the no-neighbor edge stop. -/
theorem walk_terminates_within_cap {α : Type} [LinearOrderedField α]
    (w h : ℤ) (g : Grid α) (x y : ℕ) (r : RNG) :
    (riverWalkAux w h RIVER_MAX_STEPS g x y r).steps ≤ RIVER_MAX_STEPS ∧
      ((riverWalkAux w h RIVER_MAX_STEPS g x y r).outcome = WalkResult.lake ∨
        (riverWalkAux w h RIVER_MAX_STEPS g x y r).outcome = WalkResult.sea ∨
        (riverWalkAux w h RIVER_MAX_STEPS g x y r).outcome = WalkResult.cap ∨
        (riverWalkAux w h RIVER_MAX_STEPS g x y r).outcome = WalkResult.edge) :=
  ⟨riverWalkAux_steps_le w h RIVER_MAX_STEPS g x y r, by
    cases (riverWalkAux w h RIVER_MAX_STEPS g x y r).outcome <;> simp⟩

/-- C6 counterexample: on the 1×1 grid the single cell is selected as a
spring, and its walk stops because the cell has no in-bounds neighbors: the
outcome is `edge`, which is none of the three outcomes the claim allows. -/
theorem walk_edge_counterexample :
    selected_springs oneCell zeroRNG = [mkHex 0 0 (9 / 10) 0 0] ∧
      (riverWalkAux (α := ℚ) 1 1 RIVER_MAX_STEPS oneCell.grid 0 0 zeroRNG).outcome =
        WalkResult.edge ∧
      ¬((riverWalkAux (α := ℚ) 1 1 RIVER_MAX_STEPS oneCell.grid 0 0 zeroRNG).outcome =
            WalkResult.lake ∨
          (riverWalkAux (α := ℚ) 1 1 RIVER_MAX_STEPS oneCell.grid 0 0 zeroRNG).outcome =
            WalkResult.sea ∨
          (riverWalkAux (α := ℚ) 1 1 RIVER_MAX_STEPS oneCell.grid 0 0 zeroRNG).outcome =
            WalkResult.cap) := by with_unfolding_all decide

/-- Every branch of the classifier decision tree yields a label other than
COAST. -/
theorem assignBiomeCell_ne_coast {α : Type} [LinearOrderedField α] (c : HexData α) :
    (assignBiomeCell c).terrain ≠ TerrainType.COAST := by
  intro hterr
  have hb : biomeLabel c = TerrainType.COAST := hterr
  unfold biomeLabel at hb
  dsimp only at hb
  split_ifs at hb

/-- C10: the biome classifier never produces the COAST label: every cell of
the classified grid has a terrain other than COAST, for any input grid. -/
theorem coast_never_assigned {α : Type} [LinearOrderedField α] (G : Gen α)
    (c : HexData α) (hc : c ∈ (assign_biomes G).grid.flatten) :
    c.terrain ≠ TerrainType.COAST := by
  simp only [assign_biomes, List.mem_flatten, List.mem_map, List.mem_range] at hc
  obtain ⟨row, ⟨x, hx, rfl⟩, hcr⟩ := hc
  obtain ⟨y, hy, rfl⟩ := List.mem_map.mp hcr
  exact assignBiomeCell_ne_coast _

/-- Swapping two positions preserves the length of a list. -/
theorem listSwap_length {β : Type} (l : List β) (i j : ℕ) :
    (listSwap l i j).length = l.length := by
  unfold listSwap
  split <;> simp

/-- Every element of a swapped list was in the original list. -/
theorem mem_of_listSwap {β : Type} {l : List β} {i j : ℕ} {a : β}
    (h : a ∈ listSwap l i j) : a ∈ l := by
  unfold listSwap at h
  split at h
  next b c hi hj =>
    rcases List.mem_or_eq_of_mem_set h with h1 | rfl
    · rcases List.mem_or_eq_of_mem_set h1 with h2 | rfl
      · exact h2
      · exact List.getElem?_mem hj
    · exact List.getElem?_mem hi
  next => exact h

/-- The Fisher-Yates loop preserves the length of the list. -/
theorem shuffleAux_length {β : Type} (k : ℕ) :
    ∀ (l : List β) (r : RNG), ((shuffleAux l r k).1).length = l.length := by
  induction k with
  | zero => intro l r; rfl
  | succ n ih =>
      intro l r
      show ((shuffleAux (listSwap l (n + 1) (randbelow (n + 2) r).1)
        (randbelow (n + 2) r).2 n).1).length = l.length
      rw [ih, listSwap_length]

/-- Every element of the Fisher-Yates result was in the input list. -/
theorem mem_of_shuffleAux {β : Type} (k : ℕ) :
    ∀ {l : List β} {r : RNG} {a : β}, a ∈ (shuffleAux l r k).1 → a ∈ l := by
  induction k with
  | zero => intro l r a h; exact h
  | succ n ih =>
      intro l r a h
      exact mem_of_listSwap (ih h)

/-- `random.shuffle` preserves length. -/
theorem pyShuffle_length {β : Type} (l : List β) (r : RNG) :
    ((pyShuffle l r).1).length = l.length :=
  shuffleAux_length _ l r

/-- `random.shuffle` produces only elements of its input. -/
theorem mem_of_pyShuffle {β : Type} {l : List β} {r : RNG} {a : β}
    (h : a ∈ (pyShuffle l r).1) : a ∈ l :=
  mem_of_shuffleAux _ h

/-- C5 (amended): the number of selected springs equals the smaller of the
number of candidate cells (elevation ≥ 0.7) and
`max(1, int(width·height·0.004))` — Python `int`, i.e. truncation toward
zero, not rounding — and every selected spring is drawn from the candidate
set. -/
theorem springs_count_and_membership {α : Type} [LinearOrderedField α]
    (G : Gen α) (r : RNG) :
    (selected_springs G r).length =
        min (candidate_springs G).length (target_springs G) ∧
      ∀ c ∈ selected_springs G r, c ∈ candidate_springs G := by
  constructor
  · unfold selected_springs
    rw [List.length_take, pyShuffle_length]
    omega
  · intro c hc
    exact mem_of_pyShuffle (List.take_subset _ _ hc)

/-- C5 witness: on the one-cell grid the selected spring is a candidate. -/
theorem springs_membership_witness :
    mkHex 0 0 (9 / 10) 0 0 ∈ candidate_springs oneCell :=
  (springs_count_and_membership oneCell zeroRNG).2 _ (by with_unfolding_all decide)

/-- A 15×25 grid (375 cells) with exactly two spring candidates, at (0,0)
and (0,1). -/
def grid375 : Gen ℚ :=
  ⟨15, 25, (List.range 15).map fun x =>
    (List.range 25).map fun y =>
      mkHex x y (if x = 0 ∧ y < 2 then 9 / 10 else 0) 0 0⟩

/-- C5 counterexample: on a 375-cell grid the code truncates
`375 · 0.004 = 1.5` to `1` and selects a single spring, whereas the claimed
formula `min(candidates, max(1, round(1.5))) = 2` demands two. -/
theorem springs_round_counterexample :
    (selected_springs grid375 zeroRNG).length = 1 ∧
      min (candidate_springs grid375).length
          (max 1 (round (((375 : ℤ) : ℚ) * (4 / 1000))).toNat) = 2 := by
  with_unfolding_all decide

/-- `getD` after `set`: the written value exactly when the index matches and
was in range. -/
theorem getD_set {β : Type} (l : List β) (i j : ℕ) (a d : β) :
    (l.set i a).getD j d = if i = j ∧ i < l.length then a else l.getD j d := by
  rcases eq_or_ne i j with rfl | hij
  · rcases Nat.lt_or_ge i l.length with hi | hi
    · simp [List.getD_eq_getElem?_getD, List.getElem?_set_self hi, hi]
    · rw [List.set_eq_of_length_le hi]
      have : ¬(i = i ∧ i < l.length) := by omega
      rw [if_neg this]
  · have : ¬(i = j ∧ i < l.length) := by tauto
    simp [List.getD_eq_getElem?_getD, List.getElem?_set_ne hij, this]

/-- A cell read from an updated grid is either the written cell or the old
cell at that position. -/
theorem cellAtN_setCell {α : Type} [Zero α] (g : Grid α) (x y u v : ℕ) (c : HexData α) :
    cellAtN (setCell g x y c) u v = c ∨ cellAtN (setCell g x y c) u v = cellAtN g u v := by
  unfold cellAtN setCell
  rw [getD_set]
  split
  · next hcond =>
      obtain ⟨rfl, hx⟩ := hcond
      rw [getD_set]
      split
      · exact Or.inl rfl
      · exact Or.inr rfl
  · exact Or.inr rfl

/-- Reading back the exact position written, when it was in range. -/
theorem cellAtN_setCell_self {α : Type} [Zero α] (g : Grid α) (x y : ℕ) (c : HexData α)
    (hx : x < g.length) (hy : y < (g.getD x []).length) :
    cellAtN (setCell g x y c) x y = c := by
  unfold cellAtN setCell
  rw [getD_set, if_pos ⟨rfl, hx⟩, getD_set, if_pos ⟨rfl, hy⟩]

/-- Setting a row back into its own place is the identity. -/
theorem set_getD_self {β : Type} (l : List β) (i : ℕ) (d : β) (hi : i < l.length) :
    l.set i (l.getD i d) = l := by
  apply List.ext_getElem?
  intro j
  rw [List.getElem?_set]
  split
  · next hj =>
      subst hj
      simp [List.getD_eq_getElem?_getD, List.getElem?_eq_getElem hi]
  · rfl

/-- Writing out of range changes nothing. -/
theorem setCell_oob {α : Type} [Zero α] (g : Grid α) (x y : ℕ) (c : HexData α)
    (hoob : ¬(x < g.length ∧ y < (g.getD x []).length)) :
    setCell g x y c = g := by
  unfold setCell
  rcases Nat.lt_or_ge x g.length with hx | hx
  · have hy : (g.getD x []).length ≤ y := by omega
    rw [List.set_eq_of_length_le hy, set_getD_self g x [] hx]
  · exact List.set_eq_of_length_le hx

/-- `setCell` preserves the number of rows. -/
theorem setCell_length {α : Type} [Zero α] (g : Grid α) (x y : ℕ) (c : HexData α) :
    (setCell g x y c).length = g.length := by
  unfold setCell; exact List.length_set g x _

/-- `setCell` preserves the length of the touched row. -/
theorem setCell_row_length {α : Type} [Zero α] (g : Grid α) (x y : ℕ) (c : HexData α) :
    ((setCell g x y c).getD x []).length = (g.getD x []).length := by
  unfold setCell
  rw [getD_set]
  split
  · exact List.length_set _ y c
  · rfl

/-- The lake-implies-river invariant, expressed through total lookups. -/
def lakeImpRiver {α : Type} [Zero α] (g : Grid α) : Prop :=
  ∀ u v : ℕ, (cellAtN g u v).is_lake = true → (cellAtN g u v).is_river = true

/-- Marking a river preserves the invariant (the new cell has its river flag
set, so any lake flag on it is harmless). -/
theorem lakeImpRiver_markRiver {α : Type} [Zero α] {g : Grid α}
    (hg : lakeImpRiver g) (x y : ℕ) : lakeImpRiver (markRiver g x y) := by
  intro u v
  unfold markRiver
  rcases cellAtN_setCell g x y u v _ with hcell | hcell <;> rw [hcell]
  · intro _; rfl
  · exact hg u v

/-- Marking a lake on a cell that was just marked river preserves the
invariant. -/
theorem lakeImpRiver_markLake_markRiver {α : Type} [Zero α] {g : Grid α}
    (hg : lakeImpRiver g) (x y : ℕ) :
    lakeImpRiver (markLake (markRiver g x y) x y) := by
  have hriver : lakeImpRiver (markRiver g x y) := lakeImpRiver_markRiver hg x y
  by_cases hin : x < g.length ∧ y < (g.getD x []).length
  · have hcell : cellAtN (markRiver g x y) x y = { cellAtN g x y with is_river := true } := by
      unfold markRiver
      exact cellAtN_setCell_self g x y _ hin.1 hin.2
    intro u v
    unfold markLake
    rcases cellAtN_setCell (markRiver g x y) x y u v _ with hc | hc <;> rw [hc]
    · intro _
      rw [hcell]
    · exact hriver u v
  · have hid : markLake (markRiver g x y) x y = markRiver g x y := by
      unfold markLake
      apply setCell_oob
      unfold markRiver
      rw [setCell_length, setCell_row_length]
      exact hin
    rw [hid]
    exact hriver

/-- Each walk preserves the lake-implies-river invariant: rivers are marked
before any lake flag, the sea mouth is only marked river, and everything else
leaves the grid alone. -/
theorem lakeImpRiver_riverWalkAux {α : Type} [LinearOrderedField α] (w h : ℤ) (fuel : ℕ) :
    ∀ (g : Grid α) (x y : ℕ) (r : RNG), lakeImpRiver g →
      lakeImpRiver (riverWalkAux w h fuel g x y r).grid := by
  induction fuel with
  | zero => intro g x y r hg; exact hg
  | succ n ih =>
      intro g x y r hg
      show lakeImpRiver (walkStep w h (riverWalkAux w h n) g x y r).grid
      unfold walkStep
      dsimp only
      split
      · exact lakeImpRiver_markRiver hg x y
      · split
        · exact lakeImpRiver_markLake_markRiver hg x y
        · split
          · exact lakeImpRiver_markRiver (lakeImpRiver_markRiver hg x y) _ _
          · exact ih _ _ _ _ (lakeImpRiver_markRiver hg x y)

/-- The loop over springs preserves the invariant. -/
theorem lakeImpRiver_runWalks {α : Type} [LinearOrderedField α] (w h : ℤ)
    (springs : List (HexData α)) :
    ∀ (g : Grid α) (r : RNG), lakeImpRiver g →
      lakeImpRiver (runWalks w h springs g r).1 := by
  induction springs with
  | nil => intro g r hg; exact hg
  | cons sp rest ih =>
      intro g r hg
      unfold runWalks
      dsimp only
      split
      · exact ih g r hg
      · exact ih _ _ (lakeImpRiver_riverWalkAux w h RIVER_MAX_STEPS _ _ _ _ hg)

/-- A total lookup is either a real grid cell or the default placeholder. -/
theorem cellAtN_mem_or_default {α : Type} [Zero α] (g : Grid α) (u v : ℕ) :
    cellAtN g u v ∈ g.flatten ∨ cellAtN g u v = defaultHex α := by
  unfold cellAtN
  rcases hx : g[u]? with _ | row
  · right
    simp [List.getD_eq_getElem?_getD, hx]
  · rcases hy : row[v]? with _ | c
    · right
      simp [List.getD_eq_getElem?_getD, hx, hy]
    · left
      simp only [List.getD_eq_getElem?_getD, hx, hy, Option.getD_some]
      exact List.mem_flatten.mpr ⟨row, List.getElem?_mem hx, List.getElem?_mem hy⟩

/-- The membership form of the invariant implies the total-lookup form. -/
theorem lakeImpRiver_of_flatten {α : Type} [Zero α] {g : Grid α}
    (hall : ∀ c ∈ g.flatten, c.is_lake = true → c.is_river = true) :
    lakeImpRiver g := by
  intro u v
  rcases cellAtN_mem_or_default g u v with hmem | hdef
  · exact hall _ hmem
  · rw [hdef]
    intro hcontra
    simp [defaultHex] at hcontra

/-- Every flattened-grid member is a total lookup at some position. -/
theorem exists_cellAtN_of_mem_flatten {α : Type} [Zero α] {g : Grid α} {c : HexData α}
    (hc : c ∈ g.flatten) : ∃ u v : ℕ, cellAtN g u v = c := by
  obtain ⟨row, hrow, hcr⟩ := List.mem_flatten.mp hc
  obtain ⟨u, hu, hrow_eq⟩ := List.getElem_of_mem hrow
  obtain ⟨v, hv, hcell_eq⟩ := List.getElem_of_mem hcr
  refine ⟨u, v, ?_⟩
  unfold cellAtN
  simp only [List.getD_eq_getElem?_getD, List.getElem?_eq_getElem hu, Option.getD_some,
    hrow_eq, List.getElem?_eq_getElem hv, hcell_eq]

/-- Biome classification touches only the terrain label, so it preserves the
invariant in membership form. -/
theorem lakeImpRiver_flatten_assign_biomes {α : Type} [LinearOrderedField α] {G : Gen α}
    (hg : lakeImpRiver G.grid) :
    ∀ c ∈ (assign_biomes G).grid.flatten, c.is_lake = true → c.is_river = true := by
  intro c hc
  simp only [assign_biomes, List.mem_flatten, List.mem_map, List.mem_range] at hc
  obtain ⟨row, ⟨x, hx, rfl⟩, hcr⟩ := hc
  obtain ⟨y, hy, rfl⟩ := List.mem_map.mp hcr
  exact hg x y

/-- C9: starting from a grid satisfying lake-implies-river (as a fresh grid
does: both flags default to false at allocation), every cell still satisfies
is_lake → is_river after the hydrology pass, and still after biome
classification. -/
theorem lake_implies_river {α : Type} [LinearOrderedField α] (G : Gen α) (r : RNG)
    (hinv : ∀ c ∈ G.grid.flatten, c.is_lake = true → c.is_river = true) :
    (∀ c ∈ (generate_rivers G r).grid.flatten, c.is_lake = true → c.is_river = true) ∧
      ∀ c ∈ (assign_biomes (generate_rivers G r)).grid.flatten,
        c.is_lake = true → c.is_river = true := by
  have h0 : lakeImpRiver G.grid := lakeImpRiver_of_flatten hinv
  have h1 : lakeImpRiver (generate_rivers G r).grid := by
    unfold generate_rivers
    dsimp only
    split
    · exact h0
    · exact lakeImpRiver_runWalks _ _ _ _ _ h0
  constructor
  · intro c hc
    obtain ⟨u, v, rfl⟩ := exists_cellAtN_of_mem_flatten hc
    exact h1 u v
  · exact lakeImpRiver_flatten_assign_biomes h1

/-- C9 witness: on the 2-cell row the walk ends in a lake at (0,0); the
resulting cell has both flags set and in particular is a river. -/
theorem lake_implies_river_witness :
    ({ mkHex 0 0 (9 / 10) 0 0 with is_river := true, is_lake := true } : HexData ℚ).is_river
      = true :=
  (lake_implies_river twoCellRow zeroRNG (by with_unfolding_all decide)).1
    { mkHex 0 0 (9 / 10) 0 0 with is_river := true, is_lake := true }
    (by with_unfolding_all decide) (by with_unfolding_all decide)

/-- One unit of fuel runs exactly one `walkStep`. -/
theorem riverWalkAux_succ {α : Type} [LinearOrderedField α] (w h : ℤ) (fuel : ℕ)
    (g : Grid α) (x y : ℕ) (r : RNG) :
    riverWalkAux w h (fuel + 1) g x y r = walkStep w h (riverWalkAux w h fuel) g x y r :=
  rfl

/-- Shuffling a singleton list draws nothing and changes nothing. -/
theorem pyShuffle_single {β : Type} (a : β) (r : RNG) : pyShuffle [a] r = ([a], r) :=
  rfl

/-- Shuffling a two-element list consumes one draw and either swaps or not,
depending on the parity of the drawn value. -/
theorem pyShuffle_pair {β : Type} (a b : β) (r : RNG) :
    pyShuffle [a, b] r =
      (if r.stream r.pos % 2 = 0 then [b, a] else [a, b], ⟨r.stream, r.pos + 1⟩) := by
  rcases Nat.mod_two_eq_zero_or_one (r.stream r.pos) with hp | hp <;>
    simp [pyShuffle, shuffleAux, randbelow, listSwap, hp]

/-- Scenario A cells. -/
def rowCell1 : HexData ℚ := mkHex 1 0 (1 / 2) 0 0

/-- Scenario A cell at position 2. -/
def rowCell2 : HexData ℚ := mkHex 2 0 (1 / 5) 0 0

/-- Position 0 after being marked river. -/
def rowCell0r : HexData ℚ := { mkHex 0 0 (9 / 10) 0 0 with is_river := true }

/-- The scenario grid after one step of the walk. -/
def rowGrid1 : Grid ℚ := [[rowCell0r], [rowCell1], [rowCell2]]

/-- The scenario grid after two steps of the walk. -/
def rowGrid2 : Grid ℚ := [[rowCell0r], [{ rowCell1 with is_river := true }], [rowCell2]]

/-- The scenario grid at the end: all three cells river, no lakes. -/
def scenarioRowFinal : Grid ℚ :=
  [[rowCell0r], [{ rowCell1 with is_river := true }], [{ rowCell2 with is_river := true }]]

/-- Second step of the Scenario A walk: from position 1 the lowest neighbor is
position 2 (elevation 0.2 < 0.3), which is marked river and ends the walk as
a sea mouth, whichever way the neighbor shuffle lands. -/
theorem scenario_row_walk_step2 (s : ℕ → ℕ) (k : ℕ) :
    riverWalkAux (α := ℚ) 3 1 999 rowGrid1 1 0 ⟨s, k⟩ =
      ⟨scenarioRowFinal, ⟨s, k + 1⟩, .sea, 1⟩ := by
  rw [show (999 : ℕ) = 998 + 1 from rfl, riverWalkAux_succ]
  unfold walkStep
  dsimp only
  rw [show get_neighbors (⟨3, 1, markRiver rowGrid1 1 0⟩ : Gen ℚ) ((1 : ℕ) : ℤ) ((0 : ℕ) : ℤ)
      = [rowCell2, rowCell0r] from by with_unfolding_all decide]
  rw [pyShuffle_pair]
  dsimp only
  rcases Nat.mod_two_eq_zero_or_one (s k) with hp | hp <;> rw [hp] <;>
    with_unfolding_all rfl

/-- The full Scenario A walk from the spring at position 0: two iterations,
all three cells marked river, ending at position 2 below the sea threshold. -/
theorem scenario_row_walk (s : ℕ → ℕ) (k : ℕ) :
    riverWalkAux (α := ℚ) 3 1 RIVER_MAX_STEPS scenarioRow.grid 0 0 ⟨s, k⟩ =
      ⟨scenarioRowFinal, ⟨s, k + 1⟩, .sea, 2⟩ := by
  rw [show RIVER_MAX_STEPS = 999 + 1 from rfl, riverWalkAux_succ]
  unfold walkStep
  dsimp only
  rw [show get_neighbors (⟨3, 1, markRiver scenarioRow.grid 0 0⟩ : Gen ℚ)
      ((0 : ℕ) : ℤ) ((0 : ℕ) : ℤ) = [rowCell1] from by with_unfolding_all decide]
  rw [pyShuffle_single]
  dsimp only [minByElev]
  rw [show markRiver scenarioRow.grid 0 0 = rowGrid1 from by with_unfolding_all decide]
  rw [show rowCell1.x.toNat = 1 from rfl, show rowCell1.y.toNat = 0 from rfl]
  rw [scenario_row_walk_step2 s k]
  with_unfolding_all rfl

/-- Spring selection on the scenario row is stream-independent: the single
candidate is the single selected spring. -/
theorem scenario_selected (r : RNG) :
    selected_springs scenarioRow r = [mkHex 0 0 (9 / 10) 0 0] := by
  unfold selected_springs
  rw [show candidate_springs scenarioRow = [mkHex 0 0 (9 / 10) 0 0] from by
    with_unfolding_all decide]
  rw [pyShuffle_single]
  rw [show target_springs scenarioRow = 1 from by with_unfolding_all decide]
  rfl

/-- C8: Scenario A, for every random stream: hydrology on the 1×3 row with
elevations [0.9, 0.5, 0.2] marks all three cells river and no lake, and the
walk from the spring at position 0 terminates with the sea outcome after
marking position 2 (elevation below the 0.3 sea threshold). -/
theorem scenario_row_all_river (r : RNG) :
    (generate_rivers scenarioRow r).grid = scenarioRowFinal ∧
      (riverWalkAux (α := ℚ) 3 1 RIVER_MAX_STEPS scenarioRow.grid 0 0 r).outcome =
        WalkResult.sea := by
  obtain ⟨s, k⟩ := r
  constructor
  · unfold generate_rivers
    dsimp only
    rw [show candidate_springs scenarioRow = [mkHex 0 0 (9 / 10) 0 0] from by
      with_unfolding_all decide]
    rw [scenario_selected ⟨s, k⟩]
    rw [show scenarioRow.width = 3 from rfl, show scenarioRow.height = 1 from rfl]
    rw [pyShuffle_single]
    simp only [runWalks]
    rw [show (mkHex 0 0 (9 / 10) 0 0).x.toNat = 0 from rfl,
      show (mkHex 0 0 (9 / 10) 0 0).y.toNat = 0 from rfl]
    rw [scenario_row_walk s k]
    with_unfolding_all rfl
  · rw [scenario_row_walk s k]

/-- `HEX_NOISE_Y_SCALE = sqrt(3)/2`. -/
noncomputable def HEX_NOISE_Y_SCALE : ℝ := Real.sqrt 3 / 2

/-- `ROTATE_ANGLE = pi/4`. -/
noncomputable def ROTATE_ANGLE : ℝ := Real.pi / 4

/-- `ROTATE_COS = cos(ROTATE_ANGLE)`. -/
noncomputable def ROTATE_COS : ℝ := Real.cos ROTATE_ANGLE

/-- `ROTATE_SIN = sin(ROTATE_ANGLE)`. -/
noncomputable def ROTATE_SIN : ℝ := Real.sin ROTATE_ANGLE

/-- The three noise rotation parameters `(cos θ, sin θ, idx·97)` for
`θ ∈ {0, π/3, 2π/3}`. -/
noncomputable def NOISE_ROTATION_PARAMS : List (ℝ × ℝ × ℤ) :=
  [(Real.cos 0, Real.sin 0, 0),
   (Real.cos (Real.pi / 3), Real.sin (Real.pi / 3), 97),
   (Real.cos (2 * Real.pi / 3), Real.sin (2 * Real.pi / 3), 194)]

/-- `_pseudo_random`: hash-based jitter; `math.modf` splits off the
toward-zero integer part, and a negative fraction is shifted into [0,1). -/
noncomputable def pseudo_random (x y seed : ℝ) : ℝ :=
  let raw := Real.sin ((x + seed * 0.37) * 12.9898 + (y + seed * 0.71) * 78.233) *
    43758.5453123
  let ipart : ℝ := if 0 ≤ raw then (⌊raw⌋ : ℤ) else (⌈raw⌉ : ℤ)
  let frac := raw - ipart
  if 0 ≤ frac then frac else frac + 1

/-- `_sample_perlin`: average the external `pnoise2` primitive over the three
rotated copies of the input point, each with its derived base offset. -/
noncomputable def sample_perlin (pnoise2 : ℝ → ℝ → ℕ → ℝ → ℝ → ℤ → ℝ)
    (x y scale : ℝ) (base : ℤ) (octaves : ℕ) (persistence lacunarity : ℝ) : ℝ :=
  (NOISE_ROTATION_PARAMS.foldl (fun acc p =>
    acc + pnoise2 ((x * p.1 - y * p.2.1) / scale) ((x * p.2.1 + y * p.1) / scale)
      octaves persistence lacunarity (base + p.2.2)) 0) / 3

/-- The noise configuration: the external Perlin primitive plus the three
channel seeds (drawn by `random.randint` at module import in the source). -/
structure NoiseCfg where
  pnoise2 : ℝ → ℝ → ℕ → ℝ → ℝ → ℤ → ℝ
  seed_elevation : ℤ
  seed_moisture : ℤ
  seed_temp : ℤ

/-- Pass 1 for one cell: domain warp, then raw elevation, moisture and
temperature, each mapped to [0,1] and clamped, stored with placeholder
terrain and default flags. -/
noncomputable def pass1Cell (cfg : NoiseCfg) (height : ℤ) (x y : ℕ) : HexData ℝ :=
  let offset : ℝ := if y % 2 ≠ 0 then 0.5 else 0
  let base_x0 : ℝ := (x : ℝ) + offset
  let base_y0 : ℝ := (y : ℝ) * HEX_NOISE_Y_SCALE
  let jitter_primary := pseudo_random base_x0 base_y0 ((cfg.seed_elevation : ℝ) + 0.1234)
  let jitter_secondary := pseudo_random base_x0 base_y0 ((cfg.seed_elevation : ℝ) + 987.654)
  let base_x := base_x0 + (jitter_primary - 0.5) * 0.75
  let base_y := base_y0 + (jitter_secondary - 0.5) * 0.65
  let rot_base_x := base_x * ROTATE_COS - base_y * ROTATE_SIN
  let rot_base_y := base_x * ROTATE_SIN + base_y * ROTATE_COS
  let warp_x0 := sample_perlin cfg.pnoise2 rot_base_x rot_base_y 90
    (cfg.seed_elevation + 13) 3 0.4 2.1 * 8
  let warp_y0 := sample_perlin cfg.pnoise2 (rot_base_x + 997) (rot_base_y + 421) 90
    (cfg.seed_elevation + 37) 3 0.4 2.1 * 8
  let warp_x := warp_x0 * 0.8
  let warp_y := warp_y0 * 0.8
  let elev_x := (base_x + warp_x) * ROTATE_COS - (base_y + warp_y) * ROTATE_SIN
  let elev_y := (base_x + warp_x) * ROTATE_SIN + (base_y + warp_y) * ROTATE_COS
  let cont_val := sample_perlin cfg.pnoise2 elev_x elev_y 120 cfg.seed_elevation 3 0.5 1.8
  let detail_val := sample_perlin cfg.pnoise2 elev_x elev_y 40
    (cfg.seed_elevation + 101) 6 0.55 2.25
  let elev_val := 0.65 * cont_val + 0.35 * detail_val
  let elevation := max 0 (min 1 ((elev_val + 1) / 2))
  let moist_warp_x := sample_perlin cfg.pnoise2 base_x base_y 110
    (cfg.seed_moisture + 19) 2 0.45 2.0 * 5
  let moist_warp_y := sample_perlin cfg.pnoise2 (base_x + 503) (base_y + 211) 110
    (cfg.seed_moisture + 41) 2 0.45 2.0 * 5
  let moist_x := (base_x + moist_warp_x) * ROTATE_COS - (base_y + moist_warp_y) * ROTATE_SIN
  let moist_y := (base_x + moist_warp_x) * ROTATE_SIN + (base_y + moist_warp_y) * ROTATE_COS
  let moist_val := sample_perlin cfg.pnoise2 moist_x moist_y 35 cfg.seed_moisture 6 0.5 2.1
  let moisture := max 0 (min 1 ((moist_val + 1) / 2))
  let lat_factor := (y : ℝ) / (height : ℝ)
  let temp_x := (base_x + warp_x * 0.3) * ROTATE_COS - (base_y + warp_y * 0.3) * ROTATE_SIN
  let temp_y := (base_x + warp_x * 0.3) * ROTATE_SIN + (base_y + warp_y * 0.3) * ROTATE_COS
  let temp_noise := sample_perlin cfg.pnoise2 temp_x temp_y 70 cfg.seed_temp 3 0.5 2.0 * 0.25
  let temperature := max 0 (min 1 (lat_factor + temp_noise))
  { x := x, y := y, elevation := elevation, moisture := moisture,
    temperature := temperature, terrain := .DEEP_SEA }

/-- Pass 1 over the whole grid. -/
noncomputable def pass1Grid (cfg : NoiseCfg) (width height : ℤ) : Grid ℝ :=
  (List.range width.toNat).map fun x =>
    (List.range height.toNat).map fun y => pass1Cell cfg height x y

/-- The running minimum tracked during Pass 1 (empty grids never read it). -/
noncomputable def obsMin : List ℝ → ℝ
  | [] => 0
  | a :: rest => rest.foldl min a

/-- The running maximum tracked during Pass 1. -/
noncomputable def obsMax : List ℝ → ℝ
  | [] => 0
  | a :: rest => rest.foldl max a

/-- `max(0.0, min(1.0, v))`. -/
noncomputable def clamp01 (v : ℝ) : ℝ := max 0 (min 1 v)

/-- Pass 2 for one cell, in source order: rescale and clamp each layer, raise
elevation to the 1.2 power, couple temperature to elevation, couple moisture
to elevation and temperature with the 1.1 power, then nudge temperature by
moisture; every layer is clamped on its last write. -/
noncomputable def pass2Cell (elev_min elev_span moist_min moist_span temp_min temp_span : ℝ)
    (cell : HexData ℝ) : HexData ℝ :=
  let elevation0 := clamp01 ((cell.elevation - elev_min) / elev_span)
  let elevation := Real.rpow elevation0 1.2
  let temperature0 := clamp01 ((cell.temperature - temp_min) / temp_span)
  let temperature1 := clamp01 (temperature0 - (elevation - 0.5) * 0.35)
  let moisture0 := clamp01 ((cell.moisture - moist_min) / moist_span)
  let moisture1 := if elevation > 0.65 then moisture0 * 0.85 else moisture0
  let moisture2 :=
    if elevation < 0.35 then min 1 (moisture1 + (0.35 - elevation) * 0.6) else moisture1
  let moisture3 :=
    if temperature1 > 0.75 then max 0 (moisture2 - (temperature1 - 0.75) * 0.6)
    else if temperature1 < 0.20 then min 1 (moisture2 + (0.20 - temperature1) * 0.25)
    else moisture2
  let moisture := clamp01 (Real.rpow moisture3 1.1)
  let temperature :=
    clamp01 (if moisture > 0.78 then temperature1 - 0.04
      else if moisture < 0.20 then temperature1 + 0.03
      else temperature1)
  { cell with elevation := elevation, moisture := moisture, temperature := temperature }

/-- `generate_base_layers`: Pass 1, the observed min/max per layer with the
span-1 fallback, then Pass 2 over every cell. -/
noncomputable def generate_base_layers (cfg : NoiseCfg) (width height : ℤ) : Gen ℝ :=
  let g1 := pass1Grid cfg width height
  let elevs := g1.flatten.map HexData.elevation
  let moists := g1.flatten.map HexData.moisture
  let temps := g1.flatten.map HexData.temperature
  let elev_min := obsMin elevs
  let elev_max := obsMax elevs
  let moist_min := obsMin moists
  let moist_max := obsMax moists
  let temp_min := obsMin temps
  let temp_max := obsMax temps
  let elev_span := if elev_max > elev_min then elev_max - elev_min else 1
  let moist_span := if moist_max > moist_min then moist_max - moist_min else 1
  let temp_span := if temp_max > temp_min then temp_max - temp_min else 1
  { width := width, height := height,
    grid := g1.map
      (List.map (pass2Cell elev_min elev_span moist_min moist_span temp_min temp_span)) }

/-- Clamping lands in the unit interval (lower bound). -/
theorem clamp01_nonneg (v : ℝ) : 0 ≤ clamp01 v := le_max_left 0 _

/-- Clamping lands in the unit interval (upper bound). -/
theorem clamp01_le_one (v : ℝ) : clamp01 v ≤ 1 :=
  max_le (by norm_num) (min_le_left 1 v)

/-- Pass 2 sends every cell's three scalar layers into [0,1], whatever the
raw values and observed spans were. -/
theorem pass2Cell_bounds (eMin eSpan mMin mSpan tMin tSpan : ℝ) (c : HexData ℝ) :
    0 ≤ (pass2Cell eMin eSpan mMin mSpan tMin tSpan c).elevation ∧
      (pass2Cell eMin eSpan mMin mSpan tMin tSpan c).elevation ≤ 1 ∧
      0 ≤ (pass2Cell eMin eSpan mMin mSpan tMin tSpan c).moisture ∧
      (pass2Cell eMin eSpan mMin mSpan tMin tSpan c).moisture ≤ 1 ∧
      0 ≤ (pass2Cell eMin eSpan mMin mSpan tMin tSpan c).temperature ∧
      (pass2Cell eMin eSpan mMin mSpan tMin tSpan c).temperature ≤ 1 := by
  unfold pass2Cell
  dsimp only
  refine ⟨?_, ?_, ?_, ?_, ?_, ?_⟩
  · exact Real.rpow_nonneg (clamp01_nonneg _) _
  · exact Real.rpow_le_one (clamp01_nonneg _) (clamp01_le_one _) (by norm_num)
  · exact clamp01_nonneg _
  · exact clamp01_le_one _
  · exact clamp01_nonneg _
  · exact clamp01_le_one _

/-- A lookup in a per-cell-mapped grid is the mapped old cell or the default. -/
theorem cellAtN_map2 {α : Type} [Zero α] (f : HexData α → HexData α) (g : Grid α)
    (x y : ℕ) :
    cellAtN (g.map (List.map f)) x y = f (cellAtN g x y) ∨
      cellAtN (g.map (List.map f)) x y = defaultHex α := by
  unfold cellAtN
  rcases hx : g[x]? with _ | row
  · right
    simp [List.getD_eq_getElem?_getD, List.getElem?_map, hx]
  · rcases hy : row[y]? with _ | c
    · right
      simp [List.getD_eq_getElem?_getD, List.getElem?_map, hx, hy]
    · left
      simp [List.getD_eq_getElem?_getD, List.getElem?_map, hx, hy]

/-- C2: after Pass 2 of `generate_base_layers` completes, every cell's
elevation, moisture and temperature lie in the closed interval [0,1] (the
out-of-range default placeholder satisfies the same bounds). -/
theorem base_layers_in_unit_interval (cfg : NoiseCfg) (width height : ℤ) (x y : ℕ) :
    0 ≤ (cellAtN (generate_base_layers cfg width height).grid x y).elevation ∧
      (cellAtN (generate_base_layers cfg width height).grid x y).elevation ≤ 1 ∧
      0 ≤ (cellAtN (generate_base_layers cfg width height).grid x y).moisture ∧
      (cellAtN (generate_base_layers cfg width height).grid x y).moisture ≤ 1 ∧
      0 ≤ (cellAtN (generate_base_layers cfg width height).grid x y).temperature ∧
      (cellAtN (generate_base_layers cfg width height).grid x y).temperature ≤ 1 := by
  unfold generate_base_layers
  dsimp only
  rcases cellAtN_map2 (pass2Cell _ _ _ _ _ _) (pass1Grid cfg width height) x y with
    hcell | hcell <;> rw [hcell]
  · exact pass2Cell_bounds _ _ _ _ _ _ _
  · refine ⟨le_refl 0, ?_, le_refl 0, ?_, le_refl 0, ?_⟩ <;> norm_num [defaultHex]

/-- C10 witness: the classified one-cell grid's only cell (a glacier) is not
coast. -/
theorem coast_never_assigned_witness :
    ({ mkHex 0 0 (9 / 10) 0 0 with terrain := TerrainType.GLACIER } : HexData ℚ).terrain ≠
      TerrainType.COAST :=
  coast_never_assigned oneCell _ (by with_unfolding_all decide)

/-- C2 witness: the bounds instantiated on a concrete 1×1 run with the zero
noise primitive. -/
theorem base_layers_in_unit_interval_witness :
    0 ≤ (cellAtN (generate_base_layers ⟨fun _ _ _ _ _ _ => 0, 0, 0, 0⟩ 1 1).grid 0 0).elevation :=
  (base_layers_in_unit_interval ⟨fun _ _ _ _ _ _ => 0, 0, 0, 0⟩ 1 1 0 0).1

/-- C6 witness: the step bound instantiated on the one-cell grid. -/
theorem walk_terminates_within_cap_witness :
    (riverWalkAux (α := ℚ) 1 1 RIVER_MAX_STEPS oneCell.grid 0 0 zeroRNG).steps ≤
      RIVER_MAX_STEPS :=
  (walk_terminates_within_cap 1 1 oneCell.grid 0 0 zeroRNG).1

/-- C8 witness: the scenario conclusion instantiated at the zero stream. -/
theorem scenario_row_all_river_witness :
    (generate_rivers scenarioRow zeroRNG).grid = scenarioRowFinal :=
  (scenario_row_all_river zeroRNG).1
